import Mathlib

/-!
Verification of the PolarPlotter app core (src/app.py).

The reproducible core of the repository is:
  * `_reset` (app.py lines 23-38): overwrite every style field with its default;
  * the fill-color computation `rgba` (app.py lines 429-434);
  * the visualization block (app.py lines 445-481): extract labels/values from
    the input dataframe, close the polygon, reverse, and assemble a
    `go.Scatterpolar` trace and `go.Layout` into a figure, the whole block
    wrapped in `contextlib.suppress(IndexError, NameError)`.

We embed these shallowly: Python floats become `ℚ`, dataframe cells become a
sum of text and number, a raised-and-suppressed `IndexError`/`NameError`
becomes `Option`, and an uncaught exception (the `ValueError` that
`int(x, 16)` may raise, which no handler catches) becomes `Except.error`.
-/

/-- A dataframe cell: the label column holds text, the value column numbers. -/
inductive Cell where
  | s (t : String)
  | n (q : ℚ)
deriving DecidableEq

/-- A pandas dataframe, reduced to what the visualization block reads: the
ordered list of its columns. `input_df[input_df.columns[i]]` is modelled as
the i-th column's data (column names are elided; the app never branches on
them). -/
structure DataFrame where
  cols : List (List Cell)
deriving DecidableEq

/-- The per-session style snapshot read by the visualization block: one field
per customization widget (app.py lines 124-427). -/
structure StyleConfig where
  title : String
  hovertemplate : String
  opacity : ℚ
  marker_opacity : ℚ
  line_smoothing : ℚ
  mode : List String
  marker_color : String
  line_color : String
  fillcolor : String
  marker_size : Nat
  marker_symbol : String
  line_dash : String
  line_shape : String
  line_width : Nat
  fill_opacity : ℚ
deriving DecidableEq

/-- The default style values written by `_reset` (app.py lines 23-38). -/
def defaultStyle : StyleConfig where
  title := ""
  hovertemplate := "%{theta}: %{r}"
  opacity := 1
  marker_opacity := 1
  line_smoothing := 1
  mode := ["lines", "markers"]
  marker_color := "#636EFA"
  line_color := "#636EFA"
  fillcolor := "#636EFA"
  marker_size := 6
  marker_symbol := "circle"
  line_dash := "solid"
  line_shape := "linear"
  line_width := 2
  fill_opacity := 1/2

/-- `_reset` (app.py lines 23-38): unconditionally overwrite every style field
with its default. It reads nothing from the prior state. -/
def resetStyle (_prior : StyleConfig) : StyleConfig := defaultStyle

/-- The per-session state visible to the app script: the input table (from the
data-entry widgets) and the style mapping. `_reset` writes only style keys. -/
structure SessionState where
  table : Option DataFrame
  style : StyleConfig

/-- The effect of clicking "Reset to defaults": `_reset` runs against the
session state, rewriting the style keys and nothing else. -/
def resetSession (st : SessionState) : SessionState :=
  { st with style := resetStyle st.style }

/-- Value of a single hexadecimal digit, as accepted by Python `int(x, 16)`. -/
def hexDigitVal? (c : Char) : Option Nat :=
  if c.isDigit then some (c.toNat - 48)
  else if 'a' ≤ c ∧ c ≤ 'f' then some (c.toNat - 87)
  else if 'A' ≤ c ∧ c ≤ 'F' then some (c.toNat - 55)
  else none

/-- Python `int(x, 16)` on a short string of ASCII-alphanumeric characters:
succeeds iff the string is nonempty and all characters are hex digits.
(Python additionally strips whitespace and accepts a sign, a `0x` prefix on
longer strings, underscores and Unicode digits; those characters never reach
this call in the app — the color picker emits `#` plus hex digits — and every
theorem below stays on the ASCII-alphanumeric fragment where this model is
exact.) `none` models a raised `ValueError`. -/
def int16? (l : List Char) : Option Nat :=
  if l = [] then none
  else l.foldl (fun acc c => acc.bind fun a => (hexDigitVal? c).map fun d => 16 * a + d)
    (some 0)

/-- Python `fillcolor.lstrip("#")`: drop every leading `#`. -/
def lstripHash (l : List Char) : List Char := l.dropWhile (· == '#')

/-- Python slice `l[i : i + n]` (clamps at the end of the list). -/
def pySlice (l : List Char) (i n : Nat) : List Char := (l.drop i).take n

/-- The list comprehension of app.py line 431:
`[int(fillcolor.lstrip("#")[i : i + 2], 16) for i in (0, 2, 4)]`
(Python evaluates `fillcolor.lstrip("#")` afresh at each of the three
iterations). `none` models the comprehension raising `ValueError`. -/
def rgbaChannels? (fillcolor : String) : Option (List Nat) :=
  match int16? (pySlice (lstripHash fillcolor.toList) 0 2),
        int16? (pySlice (lstripHash fillcolor.toList) 2 2),
        int16? (pySlice (lstripHash fillcolor.toList) 4 2) with
  | some r, some g, some b => some [r, g, b]
  | _, _, _ => none

/-- `rgba` (app.py lines 429-434): the three parsed channels with the fill
opacity appended, as one tuple (modelled as a list, so that Python tuple
truthiness — nonemptiness — is expressible). `none` models the uncaught
`ValueError` from a failed hex parse. -/
def rgba? (fillcolor : String) (fill_opacity : ℚ) : Option (List ℚ) :=
  (rgbaChannels? fillcolor).map fun cs => (cs.map fun c => (c : ℚ)) ++ [fill_opacity]

/-- Rendering of one tuple element for the f-string `f"RGBA{rgba}"`. Integers
render exactly as Python does; a non-integer rational renders in fraction
notation where Python prints a decimal — no claim depends on those digits. -/
def ratRepr (q : ℚ) : String := if q.den = 1 then toString q.num else toString q

/-- Python `str` of a tuple, as interpolated by `f"RGBA{rgba}"`. -/
def pyTupleStr (l : List ℚ) : String :=
  "(" ++ String.intercalate ", " (l.map ratRepr) ++ ")"

/-- The `fillcolor` argument of the trace (app.py line 468):
`f"RGBA{rgba}" if rgba else "RGBA(99, 110, 250, 0.5)"`. The conditional tests
Python truthiness of the tuple, i.e. nonemptiness. -/
def fillcolorField (rgbaVal : List ℚ) : String :=
  if rgbaVal ≠ [] then "RGBA" ++ pyTupleStr rgbaVal else "RGBA(99, 110, 250, 0.5)"

/-- Label/value extraction and polygon closing (app.py lines 446-450), the part
of the suppressed block that can raise: `input_df` unbound (`NameError`,
modelled by the `none` dataframe), a missing column 0 or 1 (`IndexError`), or
`labels[0]` / `values[0]` on an empty column (`IndexError`). `none` models a
raised-and-suppressed exception. -/
def extract? (df? : Option DataFrame) : Option (List Cell × List Cell) :=
  match df? with
  | none => none
  | some df =>
    (df.cols.get? 0).bind fun labels =>
    (df.cols.get? 1).bind fun values =>
    labels.head?.bind fun l0 =>
    values.head?.bind fun v0 =>
    some ((labels ++ [l0]).reverse, (values ++ [v0]).reverse)

/-- The `go.Scatterpolar` trace as assembled at app.py lines 452-469. -/
structure Scatterpolar where
  r : List Cell
  theta : List Cell
  mode : String
  opacity : ℚ
  hovertemplate : String
  marker_color : String
  marker_opacity : ℚ
  marker_size : Nat
  marker_symbol : String
  line_color : String
  line_dash : String
  line_shape : String
  line_smoothing : ℚ
  line_width : Nat
  fill : String
  fillcolor : String
deriving DecidableEq

/-- The `go.Layout` as assembled at app.py lines 471-479. -/
structure Layout where
  title_text : String
  title_x : ℚ
  title_xanchor : String
  paper_bgcolor : String
  plot_bgcolor : String
deriving DecidableEq

/-- The chart description: `go.Figure(data=data, layout=layout)`. -/
structure Figure where
  data : Scatterpolar
  layout : Layout
deriving DecidableEq

/-- The whole chart-building pass, app.py lines 429-481: the sidebar computes
`rgba` first (an invalid fill color raises an uncaught `ValueError`, modelled
as `Except.error ()`), then the visualization block runs under
`contextlib.suppress(IndexError, NameError)` (a suppressed failure yields
`.ok none`: no chart), and otherwise the trace and layout are assembled from
the table, the style snapshot and the data-entry `option` radio value. -/
def buildFigure? (option : String) (df? : Option DataFrame) (s : StyleConfig) :
    Except Unit (Option Figure) :=
  match rgba? s.fillcolor s.fill_opacity with
  | none => .error ()
  | some rgbaVal =>
    match extract? df? with
    | none => .ok none
    | some (labels, values) =>
      .ok (some
        { data :=
            { r := values
              theta := labels
              mode := if s.mode = [] then "none" else String.intercalate "+" s.mode
              opacity := s.opacity
              hovertemplate := s.hovertemplate ++ "<extra></extra>"
              marker_color := s.marker_color
              marker_opacity := s.marker_opacity
              marker_size := s.marker_size
              marker_symbol := s.marker_symbol
              line_color := s.line_color
              line_dash := s.line_dash
              line_shape := s.line_shape
              line_smoothing := s.line_smoothing
              line_width := s.line_width
              fill := "toself"
              fillcolor := fillcolorField rgbaVal }
          layout :=
            { title_text :=
                if option = "Play with example data 💡" then "Job Requirements" else s.title
              title_x := 1/2
              title_xanchor := "center"
              paper_bgcolor := "rgba(100,100,100,0)"
              plot_bgcolor := "rgba(100,100,100,0)" } })

/-- A `#`-prefixed 6-hex-digit color string, the format the color-picker
widget produces (used to state claims about valid fill colors). -/
def sixHexColor (s : String) : Bool :=
  match s.toList with
  | '#' :: rest => rest.length == 6 && rest.all fun c => (hexDigitVal? c).isSome
  | _ => false

/-- The byte decomposition of a `#rrggbb` string: the three channels read off
the successive 2-hex-digit pairs (spec §4.2 step 4, stated independently of
the slicing in `rgbaChannels?`). -/
def byteDecomp (s : String) : List Nat :=
  match s.toList with
  | _ :: a :: b :: c :: d :: e :: f :: _ =>
    [16 * (hexDigitVal? a).getD 0 + (hexDigitVal? b).getD 0,
     16 * (hexDigitVal? c).getD 0 + (hexDigitVal? d).getD 0,
     16 * (hexDigitVal? e).getD 0 + (hexDigitVal? f).getD 0]
  | _ => []

/-- The bad-input classes of spec §7(a): no table at all, fewer than 2 columns,
or an empty table (every column without rows). -/
def badInput : Option DataFrame → Bool
  | none => true
  | some df => df.cols.length < 2 || df.cols.all List.isEmpty

/-- The three-row example table of the spec scenario:
`[("A",1),("B",2),("C",3)]`, as a two-column dataframe. -/
def exampleDF3 : DataFrame :=
  ⟨[[Cell.s "A", Cell.s "B", Cell.s "C"], [Cell.n 1, Cell.n 2, Cell.n 3]]⟩

/-- Projection used to tell two build results apart by their layout title. -/
def figTitle : Except Unit (Option Figure) → Option String
  | .ok (some fig) => some fig.layout.title_text
  | _ => none


/-- C4: for every prior state of the style fields, `reset()` overwrites every
style field with its documented default value (title="",
hover_template="%{theta}: %{r}", opacity=1, marker_opacity=1,
line_smoothing=1, mode=[lines,markers],
marker_color=line_color=fillcolor="#636EFA", marker_size=6,
marker_symbol="circle", line_dash="solid", line_shape="linear", line_width=2,
fill_opacity=0.5); reset is total and unconditional. -/
theorem C4_reset_defaults (s : StyleConfig) :
    (resetStyle s).title = "" ∧
    (resetStyle s).hovertemplate = "%{theta}: %{r}" ∧
    (resetStyle s).opacity = 1 ∧
    (resetStyle s).marker_opacity = 1 ∧
    (resetStyle s).line_smoothing = 1 ∧
    (resetStyle s).mode = ["lines", "markers"] ∧
    (resetStyle s).marker_color = "#636EFA" ∧
    (resetStyle s).line_color = "#636EFA" ∧
    (resetStyle s).fillcolor = "#636EFA" ∧
    (resetStyle s).marker_size = 6 ∧
    (resetStyle s).marker_symbol = "circle" ∧
    (resetStyle s).line_dash = "solid" ∧
    (resetStyle s).line_shape = "linear" ∧
    (resetStyle s).line_width = 2 ∧
    (resetStyle s).fill_opacity = 1/2 :=
  ⟨rfl, rfl, rfl, rfl, rfl, rfl, rfl, rfl, rfl, rfl, rfl, rfl, rfl, rfl, rfl⟩

/-- C8: `reset()` modifies only style-configuration fields; the input table is
unchanged by reset for every prior session state. -/
theorem C8_reset_preserves_table (st : SessionState) :
    (resetSession st).table = st.table := rfl

/-- C6 (amended): the chart-building pass is deterministic and fully
determined by the data-entry option, the table and the style configuration:
two invocations with the same option, same table contents and same style yield
identical results, with no hidden state. -/
theorem C6_build_deterministic (o1 o2 : String) (d1 d2 : Option DataFrame)
    (s1 s2 : StyleConfig) (ho : o1 = o2) (hd : d1 = d2) (hs : s1 = s2) :
    buildFigure? o1 d1 s1 = buildFigure? o2 d2 s2 := by
  subst ho; subst hd; subst hs; rfl

/-- C6 witness: determinism at a concrete input. -/
theorem C6_build_deterministic_witness :
    "Add data manually ✍️" = "Add data manually ✍️" ∧
    buildFigure? "Add data manually ✍️" (some exampleDF3) defaultStyle =
      buildFigure? "Add data manually ✍️" (some exampleDF3) defaultStyle :=
  ⟨rfl, C6_build_deterministic "Add data manually ✍️" "Add data manually ✍️"
    (some exampleDF3) (some exampleDF3) defaultStyle defaultStyle rfl rfl rfl⟩

/-- C6 counterexample: the output is NOT fully determined by (table, style)
alone — with the same table contents and the same style configuration, the
example-data option and the manual-entry option produce different chart
descriptions (the layout title is forced to "Job Requirements" in the first
case and is the style title in the second). -/
theorem C6_counterexample :
    buildFigure? "Play with example data 💡" (some exampleDF3) defaultStyle ≠
    buildFigure? "Add data manually ✍️" (some exampleDF3) defaultStyle := by
  intro h
  have h2 := congrArg figTitle h
  have e1 : figTitle (buildFigure? "Play with example data 💡" (some exampleDF3)
      defaultStyle) = some "Job Requirements" := rfl
  have e2 : figTitle (buildFigure? "Add data manually ✍️" (some exampleDF3)
      defaultStyle) = some "" := rfl
  rw [e1, e2] at h2
  exact absurd (Option.some.inj h2) (by decide)

/-- C2: for every input table that is missing, empty, or has fewer than
2 columns (and any style whose fill color parses, as the color picker
guarantees), the chart-building step raises nothing to the user: the rendering
block is silently skipped and no chart is produced. -/
theorem C2_bad_input_skipped (opt : String) (df? : Option DataFrame)
    (s : StyleConfig) (hr : (rgba? s.fillcolor s.fill_opacity).isSome = true)
    (hb : badInput df? = true) :
    buildFigure? opt df? s = .ok none := by
  obtain ⟨rv, hrv⟩ := Option.isSome_iff_exists.mp hr
  have he : extract? df? = none := by
    cases df? with
    | none => rfl
    | some df =>
      obtain ⟨cols⟩ := df
      rcases cols with _ | ⟨c0, cs⟩
      · rfl
      · rcases cs with _ | ⟨c1, rest⟩
        · rfl
        · simp only [badInput, List.length_cons, List.all_cons, List.all_eq_true,
            decide_eq_true_eq, Bool.or_eq_true, Bool.and_eq_true] at hb
          rcases hb with hlen | ⟨h0, _, _⟩
          · omega
          · have hc0 : c0 = [] := List.isEmpty_iff.mp h0
            subst hc0
            rfl
  unfold buildFigure?
  rw [hrv, he]

/-- C2 witness: with no table at all and the default style, the pass yields no
chart and no error. -/
theorem C2_bad_input_skipped_witness :
    (rgba? defaultStyle.fillcolor defaultStyle.fill_opacity).isSome = true ∧
    badInput none = true ∧
    buildFigure? "Add data manually ✍️" none defaultStyle = .ok none :=
  ⟨rfl, rfl, C2_bad_input_skipped "Add data manually ✍️" none defaultStyle rfl rfl⟩

/-- Helper: when both columns exist, both have a first row, and the fill color
parses, the build pass succeeds and yields exactly the trace and layout
assembled at app.py lines 452-479. -/
theorem buildFigure_eq (opt : String) (s : StyleConfig) (df : DataFrame)
    (c0 c1 : List Cell) (l0 v0 : Cell) (rv : List ℚ)
    (h0 : df.cols.get? 0 = some c0) (h1 : df.cols.get? 1 = some c1)
    (hl : c0.head? = some l0) (hv : c1.head? = some v0)
    (hrv : rgba? s.fillcolor s.fill_opacity = some rv) :
    buildFigure? opt (some df) s = .ok (some
      { data :=
          { r := (c1 ++ [v0]).reverse
            theta := (c0 ++ [l0]).reverse
            mode := if s.mode = [] then "none" else String.intercalate "+" s.mode
            opacity := s.opacity
            hovertemplate := s.hovertemplate ++ "<extra></extra>"
            marker_color := s.marker_color
            marker_opacity := s.marker_opacity
            marker_size := s.marker_size
            marker_symbol := s.marker_symbol
            line_color := s.line_color
            line_dash := s.line_dash
            line_shape := s.line_shape
            line_smoothing := s.line_smoothing
            line_width := s.line_width
            fill := "toself"
            fillcolor := fillcolorField rv }
        layout :=
          { title_text :=
              if opt = "Play with example data 💡" then "Job Requirements" else s.title
            title_x := 1/2
            title_xanchor := "center"
            paper_bgcolor := "rgba(100,100,100,0)"
            plot_bgcolor := "rgba(100,100,100,0)" } }) := by
  have he : extract? (some df) =
      some ((c0 ++ [l0]).reverse, (c1 ++ [v0]).reverse) := by
    simp only [extract?, h0, h1, hl, hv, Option.some_bind]
  unfold buildFigure?
  rw [hrv, he]

/-- C1: for every valid table with at least 2 columns and N rows (N ≥ 1) and
every style configuration (whose fill color parses, as the color picker
guarantees), the build pass yields a trace whose label and value sequences
each have exactly N+1 points: the input column with its first element appended
at the end and the whole sequence then reversed. -/
theorem C1_closed_polygon (opt : String) (s : StyleConfig) (df : DataFrame)
    (c0 c1 : List Cell) (l0 v0 : Cell) (rv : List ℚ) (N : Nat)
    (h0 : df.cols.get? 0 = some c0) (h1 : df.cols.get? 1 = some c1)
    (hl : c0.head? = some l0) (hv : c1.head? = some v0)
    (hrv : rgba? s.fillcolor s.fill_opacity = some rv)
    (hc0 : c0.length = N) (hc1 : c1.length = N) :
    ∃ fig, buildFigure? opt (some df) s = .ok (some fig) ∧
      fig.data.theta = (c0 ++ [l0]).reverse ∧
      fig.data.r = (c1 ++ [v0]).reverse ∧
      fig.data.theta.length = N + 1 ∧
      fig.data.r.length = N + 1 := by
  refine ⟨_, buildFigure_eq opt s df c0 c1 l0 v0 rv h0 h1 hl hv hrv, rfl, rfl, ?_, ?_⟩
  · show ((c0 ++ [l0]).reverse).length = N + 1
    simp [hc0]
  · show ((c1 ++ [v0]).reverse).length = N + 1
    simp [hc1]

/-- C1 witness: the spec scenario `[("A",1),("B",2),("C",3)]` with the default
style gives trace labels `["A","C","B","A"]` and values `[1,3,2,1]`. -/
theorem C1_closed_polygon_witness :
    ∃ fig, buildFigure? "Add data manually ✍️" (some exampleDF3) defaultStyle =
        .ok (some fig) ∧
      fig.data.theta = [Cell.s "A", Cell.s "C", Cell.s "B", Cell.s "A"] ∧
      fig.data.r = [Cell.n 1, Cell.n 3, Cell.n 2, Cell.n 1] ∧
      fig.data.theta.length = 3 + 1 ∧
      fig.data.r.length = 3 + 1 :=
  C1_closed_polygon "Add data manually ✍️" defaultStyle exampleDF3
    [Cell.s "A", Cell.s "B", Cell.s "C"] [Cell.n 1, Cell.n 2, Cell.n 3]
    (Cell.s "A") (Cell.n 1) [99, 110, 250, 1/2] 3 rfl rfl rfl rfl rfl rfl rfl

/-- C7: for every style configuration (with a parsing fill color) and any
renderable table, the assembled trace's draw mode is "none" when the mode
selection is empty and otherwise the selected modes joined with "+", its hover
template is the user template with the fixed suffix "<extra></extra>"
appended, and its fill is "toself". -/
theorem C7_mode_hover_fill (opt : String) (s : StyleConfig) (df : DataFrame)
    (c0 c1 : List Cell) (l0 v0 : Cell) (rv : List ℚ)
    (h0 : df.cols.get? 0 = some c0) (h1 : df.cols.get? 1 = some c1)
    (hl : c0.head? = some l0) (hv : c1.head? = some v0)
    (hrv : rgba? s.fillcolor s.fill_opacity = some rv) :
    ∃ fig, buildFigure? opt (some df) s = .ok (some fig) ∧
      fig.data.mode = (if s.mode = [] then "none" else String.intercalate "+" s.mode) ∧
      fig.data.hovertemplate = s.hovertemplate ++ "<extra></extra>" ∧
      fig.data.fill = "toself" :=
  ⟨_, buildFigure_eq opt s df c0 c1 l0 v0 rv h0 h1 hl hv hrv, rfl, rfl, rfl⟩

/-- C7 witness: with the default style (mode = [lines, markers]) the trace
mode is "lines+markers", the hover template gains the fixed suffix, and the
fill is "toself". -/
theorem C7_mode_hover_fill_witness :
    ∃ fig, buildFigure? "Add data manually ✍️" (some exampleDF3) defaultStyle =
        .ok (some fig) ∧
      fig.data.mode = "lines+markers" ∧
      fig.data.hovertemplate = "%{theta}: %{r}<extra></extra>" ∧
      fig.data.fill = "toself" :=
  C7_mode_hover_fill "Add data manually ✍️" defaultStyle exampleDF3
    [Cell.s "A", Cell.s "B", Cell.s "C"] [Cell.n 1, Cell.n 2, Cell.n 3]
    (Cell.s "A") (Cell.n 1) [99, 110, 250, 1/2] rfl rfl rfl rfl rfl

/-- C10: for every non-empty table with at least 2 columns (whose two columns
have the same number of rows, as dataframe columns do), the transformed label
and value sequences have equal length and each begins and ends with the
original first row's label (respectively value): the polygon stays closed
after the reversal. -/
theorem C10_polygon_stays_closed (opt : String) (s : StyleConfig) (df : DataFrame)
    (c0 c1 : List Cell) (l0 v0 : Cell) (rv : List ℚ)
    (h0 : df.cols.get? 0 = some c0) (h1 : df.cols.get? 1 = some c1)
    (hl : c0.head? = some l0) (hv : c1.head? = some v0)
    (hrv : rgba? s.fillcolor s.fill_opacity = some rv)
    (hlen : c0.length = c1.length) :
    ∃ fig, buildFigure? opt (some df) s = .ok (some fig) ∧
      fig.data.theta.length = fig.data.r.length ∧
      fig.data.theta.head? = some l0 ∧
      fig.data.theta.getLast? = some l0 ∧
      fig.data.r.head? = some v0 ∧
      fig.data.r.getLast? = some v0 := by
  refine ⟨_, buildFigure_eq opt s df c0 c1 l0 v0 rv h0 h1 hl hv hrv, ?_, ?_, ?_, ?_, ?_⟩
  · show ((c0 ++ [l0]).reverse).length = ((c1 ++ [v0]).reverse).length
    simp [hlen]
  · show ((c0 ++ [l0]).reverse).head? = some l0
    rw [List.head?_reverse]
    simp
  · show ((c0 ++ [l0]).reverse).getLast? = some l0
    rw [List.getLast?_reverse]
    cases c0 with
    | nil => simp at hl
    | cons x xs =>
      simp only [List.head?_cons, Option.some.injEq] at hl
      simp [hl]
  · show ((c1 ++ [v0]).reverse).head? = some v0
    rw [List.head?_reverse]
    simp
  · show ((c1 ++ [v0]).reverse).getLast? = some v0
    rw [List.getLast?_reverse]
    cases c1 with
    | nil => simp at hv
    | cons x xs =>
      simp only [List.head?_cons, Option.some.injEq] at hv
      simp [hv]

/-- C10 witness: the closure invariant at the spec scenario table. -/
theorem C10_polygon_stays_closed_witness :
    ∃ fig, buildFigure? "Add data manually ✍️" (some exampleDF3) defaultStyle =
        .ok (some fig) ∧
      fig.data.theta.length = fig.data.r.length ∧
      fig.data.theta.head? = some (Cell.s "A") ∧
      fig.data.theta.getLast? = some (Cell.s "A") ∧
      fig.data.r.head? = some (Cell.n 1) ∧
      fig.data.r.getLast? = some (Cell.n 1) :=
  C10_polygon_stays_closed "Add data manually ✍️" defaultStyle exampleDF3
    [Cell.s "A", Cell.s "B", Cell.s "C"] [Cell.n 1, Cell.n 2, Cell.n 3]
    (Cell.s "A") (Cell.n 1) [99, 110, 250, 1/2] rfl rfl rfl rfl rfl rfl

/-- Helper: a valid `#rrggbb` string decomposes into `#` followed by exactly
six hex digits. -/
theorem sixHexColor_decomp (s : String) (h : sixHexColor s = true) :
    ∃ a b c d e f, s.toList = ['#', a, b, c, d, e, f] ∧
      (hexDigitVal? a).isSome = true ∧ (hexDigitVal? b).isSome = true ∧
      (hexDigitVal? c).isSome = true ∧ (hexDigitVal? d).isSome = true ∧
      (hexDigitVal? e).isSome = true ∧ (hexDigitVal? f).isSome = true := by
  unfold sixHexColor at h
  split at h
  case h_2 => exact absurd h (by simp)
  case h_1 rest heq =>
    rw [Bool.and_eq_true, beq_iff_eq] at h
    obtain ⟨hlen, hall⟩ := h
    rcases rest with _ | ⟨a, rest⟩
    · simp at hlen
    rcases rest with _ | ⟨b, rest⟩
    · simp at hlen
    rcases rest with _ | ⟨c, rest⟩
    · simp at hlen
    rcases rest with _ | ⟨d, rest⟩
    · simp at hlen
    rcases rest with _ | ⟨e, rest⟩
    · simp at hlen
    rcases rest with _ | ⟨f, rest⟩
    · simp at hlen
    have hrest : rest = [] := by
      rcases rest with _ | ⟨g, t⟩
      · rfl
      · simp only [List.length_cons] at hlen
        omega
    subst hrest
    simp only [List.all_cons, List.all_nil, Bool.and_eq_true, and_true] at hall
    exact ⟨a, b, c, d, e, f, heq, hall.1, hall.2.1, hall.2.2.1, hall.2.2.2.1,
      hall.2.2.2.2.1, hall.2.2.2.2.2⟩

/-- Helper: a hex digit is never the stripped `#` character. -/
theorem hexDigit_ne_hash (x : Char) (hx : (hexDigitVal? x).isSome = true) :
    (x == '#') = false := by
  rw [beq_eq_false_iff_ne]
  intro hxeq
  subst hxeq
  rw [show hexDigitVal? '#' = none from rfl] at hx
  simp at hx

/-- Helper: `int(x, 16)` on a two-hex-digit string. -/
theorem int16_pair (x y : Char) (vx vy : Nat)
    (hx : hexDigitVal? x = some vx) (hy : hexDigitVal? y = some vy) :
    int16? [x, y] = some (16 * vx + vy) := by
  unfold int16?
  simp [List.foldl, hx, hy]

/-- Helper: on a valid `#rrggbb` fill color, `rgba` is exactly the byte
decomposition of the hex pairs with the fill opacity appended. -/
theorem rgba_of_sixHex (s : String) (o : ℚ) (h : sixHexColor s = true) :
    rgba? s o = some ((byteDecomp s).map (fun c => (c : ℚ)) ++ [o]) := by
  obtain ⟨a, b, c, d, e, f, heq, ha, hb, hc, hd, he, hf⟩ := sixHexColor_decomp s h
  obtain ⟨va, hva⟩ := Option.isSome_iff_exists.mp ha
  obtain ⟨vb, hvb⟩ := Option.isSome_iff_exists.mp hb
  obtain ⟨vc, hvc⟩ := Option.isSome_iff_exists.mp hc
  obtain ⟨vd, hvd⟩ := Option.isSome_iff_exists.mp hd
  obtain ⟨ve, hve⟩ := Option.isSome_iff_exists.mp he
  obtain ⟨vf, hvf⟩ := Option.isSome_iff_exists.mp hf
  have hstrip : lstripHash ['#', a, b, c, d, e, f] = [a, b, c, d, e, f] := by
    unfold lstripHash
    simp [List.dropWhile_cons, hexDigit_ne_hash a ha]
  have h1 : pySlice [a, b, c, d, e, f] 0 2 = [a, b] := rfl
  have h2 : pySlice [a, b, c, d, e, f] 2 2 = [c, d] := rfl
  have h3 : pySlice [a, b, c, d, e, f] 4 2 = [e, f] := rfl
  have hch : rgbaChannels? s = some [16 * va + vb, 16 * vc + vd, 16 * ve + vf] := by
    unfold rgbaChannels?
    rw [heq, hstrip, h1, h2, h3, int16_pair a b va vb hva hvb,
      int16_pair c d vc vd hvc hvd, int16_pair e f ve vf hve hvf]
  have hbd : byteDecomp s = [16 * va + vb, 16 * vc + vd, 16 * ve + vf] := by
    simp only [byteDecomp, heq, hva, hvb, hvc, hvd, hve, hvf, Option.getD_some]
  unfold rgba?
  rw [hch, hbd]
  rfl

/-- C5: for every valid 6-hex-digit fill color string and every fill opacity,
the computed fill RGBA tuple is the byte decomposition of the hex string —
three integer channels parsed from the successive 2-hex-digit pairs — with
the fill opacity appended as the 4th channel. -/
theorem C5_rgba_byte_decomposition (s : String) (o : ℚ)
    (h : sixHexColor s = true) :
    rgba? s o = some ((byteDecomp s).map (fun c => (c : ℚ)) ++ [o]) :=
  rgba_of_sixHex s o h

/-- C5 witness: `"#636EFA"` with opacity 1/2 yields `(99, 110, 250, 1/2)`. -/
theorem C5_rgba_byte_decomposition_witness :
    sixHexColor "#636EFA" = true ∧
    rgba? "#636EFA" (1/2) = some [99, 110, 250, 1/2] :=
  ⟨rfl, C5_rgba_byte_decomposition "#636EFA" (1/2) rfl⟩

/-- C9: for every fill color the constrained color-picker input can produce
(a `#` plus 6 hex digits) and every fill opacity, `rgba` is a 4-element tuple,
hence truthy, so the hardcoded fallback "RGBA(99, 110, 250, 0.5)" branch of
the fillcolor expression is never taken: the trace fill color is always the
string "RGBA" followed by the computed tuple. -/
theorem C9_fallback_unreachable (opt : String) (df? : Option DataFrame)
    (s : StyleConfig) (h : sixHexColor s.fillcolor = true) :
    ∃ l, rgba? s.fillcolor s.fill_opacity = some l ∧ l.length = 4 ∧
      fillcolorField l = "RGBA" ++ pyTupleStr l ∧
      ∀ fig, buildFigure? opt df? s = .ok (some fig) →
        fig.data.fillcolor = "RGBA" ++ pyTupleStr l := by
  obtain ⟨a, b, c, d, e, f, heq, ha, hb, hc, hd, he, hf⟩ :=
    sixHexColor_decomp s.fillcolor h
  have hr := rgba_of_sixHex s.fillcolor s.fill_opacity h
  set l := (byteDecomp s.fillcolor).map (fun c => (c : ℚ)) ++ [s.fill_opacity]
    with hl
  have hne : l ≠ [] := by simp [hl]
  have hfc : fillcolorField l = "RGBA" ++ pyTupleStr l := by
    rw [fillcolorField, if_pos hne]
  have hbd : byteDecomp s.fillcolor =
      [16 * (hexDigitVal? a).getD 0 + (hexDigitVal? b).getD 0,
       16 * (hexDigitVal? c).getD 0 + (hexDigitVal? d).getD 0,
       16 * (hexDigitVal? e).getD 0 + (hexDigitVal? f).getD 0] := by
    simp only [byteDecomp, heq]
  refine ⟨l, hr, ?_, hfc, ?_⟩
  · rw [hl, hbd]
    rfl
  · intro fig hfig
    simp only [buildFigure?, hr] at hfig
    split at hfig
    · simp at hfig
    · simp only [Except.ok.injEq, Option.some.injEq] at hfig
      subst hfig
      exact hfc

/-- C9 witness: the default fill color "#636EFA" with the default opacity
yields a 4-element rgba and the trace fill color takes the computed branch. -/
theorem C9_fallback_unreachable_witness :
    ∃ l, rgba? defaultStyle.fillcolor defaultStyle.fill_opacity = some l ∧
      l.length = 4 ∧
      fillcolorField l = "RGBA" ++ pyTupleStr l ∧
      ∀ fig, buildFigure? "Upload an excel file ⬆️" (some exampleDF3)
          defaultStyle = .ok (some fig) →
        fig.data.fillcolor = "RGBA" ++ pyTupleStr l :=
  C9_fallback_unreachable "Upload an excel file ⬆️" (some exampleDF3)
    defaultStyle rfl

/-- C3 counterexample: the claim that a non-6-hex fill color never fails and
falls back to the hardcoded default RGBA is false. On "#GGGGGG" the hex parse
fails (a `ValueError` no handler catches) and the whole build pass raises
instead of producing anything; and because Python slices clamp, the 5-digit
"#636EF" and the 7-digit "#636EFA1" are also not valid 6-hex-digit colors yet
parse successfully to computed tuples — never to the hardcoded default. -/
theorem C3_counterexample :
    sixHexColor "#GGGGGG" = false ∧
    rgba? "#GGGGGG" (1/2) = none ∧
    buildFigure? "Add data manually ✍️" (some exampleDF3)
      { defaultStyle with fillcolor := "#GGGGGG" } = .error () ∧
    sixHexColor "#636EF" = false ∧
    rgba? "#636EF" (1/2) = some [99, 110, 15, 1/2] ∧
    sixHexColor "#636EFA1" = false ∧
    rgba? "#636EFA1" (1/2) = some [99, 110, 250, 1/2] :=
  ⟨rfl, rfl, rfl, rfl, rfl, rfl, rfl⟩

/-- C3 (amended): for every fill-color string (of `#` and ASCII-alphanumeric
characters, the fragment on which the model of `int(x, 16)` is exact) and
every fill opacity, the fill-color computation never uses the hardcoded
default RGBA fallback: either the hex-pair parse fails and the computation
raises an uncaught error that aborts the whole build step for every table, or
the parse succeeds (due to slice clamping this includes some strings that are
not valid 6-hex-digit colors) and the rgba tuple is non-empty, so the trace
fill color is "RGBA" followed by the computed tuple. -/
theorem C3_no_fallback (opt : String) (df? : Option DataFrame)
    (s : StyleConfig)
    (_hchars : s.fillcolor.toList.all (fun c => c.isAlphanum || c == '#') = true) :
    (rgba? s.fillcolor s.fill_opacity = none ∧ buildFigure? opt df? s = .error ()) ∨
    (∃ l, rgba? s.fillcolor s.fill_opacity = some l ∧ l ≠ [] ∧
      fillcolorField l = "RGBA" ++ pyTupleStr l ∧
      ∀ fig, buildFigure? opt df? s = .ok (some fig) →
        fig.data.fillcolor = "RGBA" ++ pyTupleStr l) := by
  cases hrv : rgba? s.fillcolor s.fill_opacity with
  | none =>
    left
    refine ⟨rfl, ?_⟩
    unfold buildFigure?
    rw [hrv]
  | some l =>
    right
    have hne : l ≠ [] := by
      unfold rgba? at hrv
      cases hcs : rgbaChannels? s.fillcolor with
      | none =>
        rw [hcs] at hrv
        exact absurd hrv (by simp)
      | some cs =>
        rw [hcs] at hrv
        have hl := Option.some.inj hrv
        rw [← hl]
        simp
    have hfc : fillcolorField l = "RGBA" ++ pyTupleStr l := by
      rw [fillcolorField, if_pos hne]
    refine ⟨l, rfl, hne, hfc, ?_⟩
    intro fig hfig
    simp only [buildFigure?, hrv] at hfig
    split at hfig
    · simp at hfig
    · simp only [Except.ok.injEq, Option.some.injEq] at hfig
      subst hfig
      exact hfc

/-- C3 witness: on the invalid fill color "#GGGGGG" the dichotomy holds (here
through its error branch: the parse fails and the build pass raises). -/
theorem C3_no_fallback_witness :
    ("#GGGGGG".toList.all (fun c => c.isAlphanum || c == '#')) = true ∧
    ((rgba? "#GGGGGG" 1 = none ∧
      buildFigure? "Upload an excel file ⬆️" none
        { defaultStyle with fillcolor := "#GGGGGG", fill_opacity := 1 } =
        .error ()) ∨
    (∃ l, rgba? "#GGGGGG" 1 = some l ∧ l ≠ [] ∧
      fillcolorField l = "RGBA" ++ pyTupleStr l ∧
      ∀ fig, buildFigure? "Upload an excel file ⬆️" none
          { defaultStyle with fillcolor := "#GGGGGG", fill_opacity := 1 } =
          .ok (some fig) →
        fig.data.fillcolor = "RGBA" ++ pyTupleStr l)) :=
  ⟨rfl, C3_no_fallback "Upload an excel file ⬆️" none
    { defaultStyle with fillcolor := "#GGGGGG", fill_opacity := 1 } rfl⟩
